import Mathlib

/-!
Verification development for the raptor-state library (the modular sources
under src/: state.ts, computed.ts, async.ts). The library is glue code over
an external reactive engine; the engine itself is not part of the repository,
so its primitives (store dispatch, derived recomputation, effect lifecycle
signals) are modelled from the specification's description of the engine,
while every wrapper-level definition below is translated from the TypeScript
sources.
-/

namespace Raptor

/-- Embeds `StateValue<T> = T | null | undefined` from types.ts: a value of
type `T`, or one of the two JavaScript absence markers. -/
inductive SV (α : Type) where
  | val (a : α) : SV α
  | null : SV α
  | undef : SV α
deriving DecidableEq, Repr

/-- Embeds a JavaScript `Error` object as carried in the `error` cell:
only its message string is observable in this library. -/
structure JsError where
  message : String
deriving DecidableEq, Repr

/-- Model of one Primitive State Cell produced by `State()` in state.ts:
the initial value captured at construction (used by the wired `.reset`),
the current value of the underlying store, the list of currently registered
subscriber identities, and the log of notifications delivered so far
(most recent first, as pairs of subscriber id and delivered value). -/
structure StateCell (α : Type) where
  initial : SV α
  current : SV α
  subs : List Nat
  delivered : List (Nat × SV α)
deriving DecidableEq, Repr

/-- Embeds `State(initialValue)` from state.ts: a fresh store holding the
initial value, with no subscribers and no notifications yet. -/
def State (initialValue : SV α) : StateCell α :=
  { initial := initialValue, current := initialValue, subs := [], delivered := [] }

/-- Embeds the `set` event wired by `$state.on(set, (_, payload) => payload)`.
Modelled from the spec: the engine replaces the current value unconditionally
and fires every current subscriber once on each dispatch, regardless of value
equality (spec 4.1, edge cases). -/
def StateCell.set (v : SV α) (c : StateCell α) : StateCell α :=
  { c with current := v, delivered := (c.subs.map fun i => (i, v)) ++ c.delivered }

/-- Embeds the `update` event wired by `$state.on(update, (state, updater) =>
updater(state))`: applies the updater to the current value and installs the
result through the same dispatch as `set`. -/
def StateCell.update (f : SV α → SV α) (c : StateCell α) : StateCell α :=
  { c with current := f c.current,
           delivered := (c.subs.map fun i => (i, f c.current)) ++ c.delivered }

/-- Embeds the `reset` event wired by `$state.reset(reset)`. Modelled from the
spec: the engine restores the value captured at construction, through the same
notification path (spec 4.1). -/
def StateCell.reset (c : StateCell α) : StateCell α :=
  { c with current := c.initial,
           delivered := (c.subs.map fun i => (i, c.initial)) ++ c.delivered }

/-- Embeds `subscribe(fn)` backed by `$state.watch(fn)`. Modelled from the
spec: the engine invokes a new watcher immediately with the current value and
registers it for subsequent dispatches (spec 4.1). -/
def StateCell.subscribe (i : Nat) (c : StateCell α) : StateCell α :=
  { c with subs := i :: c.subs, delivered := (i, c.current) :: c.delivered }

/-- A mutation applied to a Primitive State Cell through its public write
operations `set` and `update`. -/
inductive CellOp (α : Type) where
  | set (v : SV α) : CellOp α
  | update (f : SV α → SV α) : CellOp α

/-- Applies one public mutation to a cell. -/
def applyOp (c : StateCell α) (op : CellOp α) : StateCell α :=
  match op with
  | .set v => c.set v
  | .update f => c.update f

/-- Applies a finite sequence of `set`/`update` mutations, in order. -/
def applyOps (c : StateCell α) (ops : List (CellOp α)) : StateCell α :=
  ops.foldl applyOp c

/-- Model of the Derived Value produced by `computed(dependencies, fn)` in
computed.ts: the current values of the source stores (in source-array order)
and the derived store's cached value, produced by the engine's `sample`
wiring `fn(...values)`. -/
structure ComputedSys (α T : Type) where
  sources : List α
  cache : T
deriving Repr

/-- Embeds `computed(dependencies, fn)` from computed.ts: the engine's
`sample` computes the derived value from the sources at construction. -/
def computed (fn : List α → T) (deps : List α) : ComputedSys α T :=
  { sources := deps, cache := fn deps }

/-- Reads `get value`, which returns `$computed.getState()`: the derived
store's cached value. -/
def ComputedSys.value (s : ComputedSys α T) : T :=
  s.cache

/-- One source cell mutating to a new value. Modelled from the spec: on any
source change the engine synchronously recomputes the derived store from the
sources' current values in source-array order (spec 4.2). -/
def ComputedSys.srcSet (fn : List α → T) (i : Nat) (v : α) (s : ComputedSys α T) :
    ComputedSys α T :=
  let ss := s.sources.set i v
  { sources := ss, cache := fn ss }

/-- Applies a finite sequence of source mutations (index, new value), in
order. -/
def applyMuts (fn : List α → T) (s : ComputedSys α T) (ms : List (Nat × α)) :
    ComputedSys α T :=
  ms.foldl (fun s m => s.srcSet fn m.1 m.2) s

/-- Model of the Async Operation Handle produced by `asyncState(handler,
initialData)` in async.ts: the captured handler (its settlement outcome,
resolution or rejection, represented as `Except`), the captured
`initialData` used by the handle's `reset`, and the three internal cells. -/
structure AsyncHandle (P D : Type) where
  handler : P → Except JsError D
  initData : SV D
  data : StateCell D
  loading : StateCell Bool
  error : StateCell JsError

/-- Embeds `asyncState(handler, initialData)` from async.ts: `data` starts at
`initialData`, `loading` at `false`, `error` at `null`; the immediate call of
the `fx.pending.watch` watcher (the engine invokes a new watcher with the
store's current value, `false`) re-sets `loading` to `false` at wiring time. -/
def asyncState (handler : P → Except JsError D) (initialData : SV D) : AsyncHandle P D :=
  { handler := handler
    initData := initialData
    data := State initialData
    loading := (State (SV.val false)).set (SV.val false)
    error := State SV.null }

/-- Embeds the invocation start of `execute`: the engine flips `fx.pending`
to `true` before the handler promise settles, and the wired watcher
`fx.pending.watch((isLoading) => loading.set(isLoading))` sets the `loading`
cell to `true`. -/
def AsyncHandle.executeStart (h : AsyncHandle P D) : AsyncHandle P D :=
  { h with loading := h.loading.set (SV.val true) }

/-- Embeds the settlement wiring of async.ts: on resolution `fx.doneData`
fires, setting `data` to the result and `error` to `null`; on rejection
`fx.failData` fires, setting `error` to the reason; in both cases
`fx.pending` returns to `false`, so the wired watcher sets `loading` to
`false`. -/
def AsyncHandle.settle (h : AsyncHandle P D) (o : Except JsError D) : AsyncHandle P D :=
  match o with
  | .ok v =>
      { h with data := h.data.set (SV.val v)
               error := h.error.set SV.null
               loading := h.loading.set (SV.val false) }
  | .error e =>
      { h with error := h.error.set (SV.val e)
               loading := h.loading.set (SV.val false) }

/-- Embeds one full `execute(params)` invocation, start followed by
settlement; the second component is the outcome of the promise `execute`
returns, which (modelled from the spec, 4.3 and 7) settles exactly as the
handler's promise does. -/
def AsyncHandle.execute (h : AsyncHandle P D) (p : P) :
    AsyncHandle P D × Except JsError D :=
  (h.executeStart.settle (h.handler p), h.handler p)

/-- Embeds `get isLoading`, which returns `loading.value === true`. -/
def AsyncHandle.isLoading (h : AsyncHandle P D) : Bool :=
  match h.loading.current with
  | SV.val true => true
  | _ => false

/-- Embeds `get hasError`, which returns `error.value !== null` (notice:
only the `null` marker is excluded). -/
def AsyncHandle.hasError (h : AsyncHandle P D) : Bool :=
  match h.error.current with
  | SV.null => false
  | _ => true

/-- Embeds `get hasData`, which returns `data.value !== null && data.value
!== undefined`. -/
def AsyncHandle.hasData (h : AsyncHandle P D) : Bool :=
  match h.data.current with
  | SV.val _ => true
  | _ => false

/-- Embeds the handle's `reset()`: sets `data` back to the captured
`initialData`, `loading` to `false` and `error` to `null`. -/
def AsyncHandle.reset (h : AsyncHandle P D) : AsyncHandle P D :=
  { h with data := h.data.set h.initData
           loading := h.loading.set (SV.val false)
           error := h.error.set SV.null }

/-- Embeds a caller writing to the handle's exposed `error` cell through its
public `set` (the returned record exposes the three cells as full
`StateInstance`s). -/
def AsyncHandle.errorSet (h : AsyncHandle P D) (v : SV JsError) : AsyncHandle P D :=
  { h with error := h.error.set v }

/-- Embeds the response object the host `fetch` primitive hands to the
fetchState handler: only the fields the handler reads. -/
structure HttpResponse where
  status : Nat
  statusText : String
  body : String
deriving DecidableEq, Repr

/-- Embeds `response.ok` of the host fetch primitive: the status is in the
2xx success range. -/
def HttpResponse.ok (r : HttpResponse) : Bool :=
  200 ≤ r.status && r.status ≤ 299

/-- Embeds the handler closed over by `fetchState` in async.ts, with the
network response supplied as the invocation input and the JSON parsing of the
body abstracted as `parse`: a non-ok response throws
`Error("HTTP " + status + ": " + statusText)`, an ok response resolves with
the parsed body. -/
def fetchHandler (parse : String → D) (r : HttpResponse) : Except JsError D :=
  if r.ok then Except.ok (parse r.body)
  else Except.error { message := "HTTP " ++ toString r.status ++ ": " ++ r.statusText }

/-- Embeds `fetchState(url, options)` from async.ts: `asyncState` over the
fetch handler, with the default `initialData = null`. -/
def fetchState (parse : String → D) : AsyncHandle HttpResponse D :=
  asyncState (fetchHandler parse) SV.null

/-- Embeds `mutationState(handler)` from async.ts: it returns
`asyncState(handler)`, so the default `initialData = null` applies. -/
def mutationState (handler : P → Except JsError D) : AsyncHandle P D :=
  asyncState handler SV.null

/-- Containment of one string inside another, as a concatenation
decomposition of the character data. -/
def containsStr (needle hay : String) : Prop :=
  ∃ pre post : List Char, hay.data = pre ++ needle.data ++ post

/-- Claim C1: for every async handle and every execute invocation whose
handler resolves with value v, after settlement the data cell holds v, the
error cell holds the absence marker null, and the loading cell holds
false. -/
theorem execute_success_settlement {P D : Type} (h : AsyncHandle P D) (p : P) (v : D)
    (hs : h.handler p = Except.ok v) :
    ((h.execute p).1.data.current = SV.val v) ∧
    ((h.execute p).1.error.current = SV.null) ∧
    ((h.execute p).1.loading.current = SV.val false) := by
  simp [AsyncHandle.execute, AsyncHandle.settle, AsyncHandle.executeStart,
    StateCell.set, hs]

/-- Witness for C1: the spec's success scenario, handler n * 2 executed at
21 settles with data 42, error null, loading false. -/
theorem execute_success_settlement_witness :
    (((asyncState (fun n : Nat => (Except.ok (n * 2) : Except JsError Nat)) SV.null).execute
        21).1.data.current = SV.val 42) ∧
    (((asyncState (fun n : Nat => (Except.ok (n * 2) : Except JsError Nat)) SV.null).execute
        21).1.error.current = SV.null) ∧
    (((asyncState (fun n : Nat => (Except.ok (n * 2) : Except JsError Nat)) SV.null).execute
        21).1.loading.current = SV.val false) :=
  execute_success_settlement _ 21 42 rfl

/-- Claim C2: for every async handle and every execute invocation whose
handler rejects with reason e, after settlement the error cell holds e, the
promise returned by execute rejects with e, and the data cell holds exactly
the value it held immediately before settlement (which is the pre-invocation
value): stale data is preserved. -/
theorem execute_failure_settlement {P D : Type} (h : AsyncHandle P D) (p : P) (e : JsError)
    (hs : h.handler p = Except.error e) :
    ((h.execute p).1.error.current = SV.val e) ∧
    ((h.execute p).2 = Except.error e) ∧
    ((h.execute p).1.data.current = h.executeStart.data.current) ∧
    ((h.execute p).1.data.current = h.data.current) := by
  simp [AsyncHandle.execute, AsyncHandle.settle, AsyncHandle.executeStart,
    StateCell.set, hs]

/-- Witness for C2: the spec's failure scenario, a handler rejecting with
message boom leaves the error cell holding it, rejects the returned promise,
and keeps data at its prior value (null here). -/
theorem execute_failure_settlement_witness :
    (((asyncState (fun _ : Unit => (Except.error ⟨"boom"⟩ : Except JsError Nat)) SV.null).execute
        ()).1.error.current = SV.val ⟨"boom"⟩) ∧
    (((asyncState (fun _ : Unit => (Except.error ⟨"boom"⟩ : Except JsError Nat)) SV.null).execute
        ()).2 = Except.error ⟨"boom"⟩) ∧
    (((asyncState (fun _ : Unit => (Except.error ⟨"boom"⟩ : Except JsError Nat)) SV.null).execute
        ()).1.data.current =
      (asyncState (fun _ : Unit => (Except.error ⟨"boom"⟩ : Except JsError Nat))
        SV.null).executeStart.data.current) ∧
    (((asyncState (fun _ : Unit => (Except.error ⟨"boom"⟩ : Except JsError Nat)) SV.null).execute
        ()).1.data.current =
      (asyncState (fun _ : Unit => (Except.error ⟨"boom"⟩ : Except JsError Nat))
        SV.null).data.current) :=
  execute_failure_settlement _ () ⟨"boom"⟩ rfl

/-- Claim C3: for every async handle and every execute invocation, the
loading cell is set to true at invocation start, before settlement: the
started-but-unsettled state has loading true and isLoading true, and execute
factors as settlement applied after the start step. -/
theorem execute_sets_loading_at_start {P D : Type} (h : AsyncHandle P D) (p : P) :
    (h.executeStart.loading.current = SV.val true) ∧
    (h.executeStart.isLoading = true) ∧
    ((h.execute p).1 = h.executeStart.settle (h.handler p)) :=
  ⟨rfl, rfl, rfl⟩

/-- Claim C4: for every Primitive State Cell, set with the cell's current
value still delivers exactly one notification to every current subscriber
(no deduplication by value equality), and the current value is unchanged. -/
theorem set_same_value_notifies_all {α : Type} (c : StateCell α) (v : SV α)
    (hcv : c.current = v) :
    ((c.set v).delivered = (c.subs.map fun i => (i, v)) ++ c.delivered) ∧
    ((c.set v).current = c.current) :=
  ⟨rfl, hcv.symm⟩

/-- Witness for C4: a cell holding 5 with two subscribers, set to 5 again,
delivers one fresh notification to each subscriber. -/
theorem set_same_value_notifies_all_witness :
    ((((State (SV.val (5 : Nat))).subscribe 0).subscribe 1).current = SV.val 5) ∧
    (((((State (SV.val (5 : Nat))).subscribe 0).subscribe 1).set (SV.val 5)).delivered =
      ([1, 0].map fun i => (i, SV.val (5 : Nat))) ++ [(1, SV.val 5), (0, SV.val 5)]) :=
  ⟨rfl, (set_same_value_notifies_all (((State (SV.val (5 : Nat))).subscribe 0).subscribe 1)
      (SV.val 5) rfl).1⟩

/-- Helper: the public set and update mutations never touch the initial
value captured at construction. -/
theorem applyOps_initial {α : Type} (ops : List (CellOp α)) (c : StateCell α) :
    (applyOps c ops).initial = c.initial := by
  induction ops generalizing c with
  | nil => rfl
  | cons op ops ih =>
      have h1 : (applyOp c op).initial = c.initial := by
        cases op <;> rfl
      calc (applyOps c (op :: ops)).initial
          = (applyOps (applyOp c op) ops).initial := rfl
        _ = (applyOp c op).initial := ih _
        _ = c.initial := h1

/-- Claim C5: for every cell created with initial value v0 and every finite
sequence of set and update calls, a subsequent reset leaves the cell's value
equal to v0. -/
theorem reset_restores_initial {α : Type} (v0 : SV α) (ops : List (CellOp α)) :
    ((applyOps (State v0) ops).reset).current = v0 := by
  show (applyOps (State v0) ops).initial = v0
  rw [applyOps_initial]
  rfl

/-- Helper: the derived cache equals the combining function applied to the
current sources, preserved across any mutation sequence. -/
theorem applyMuts_cache {α T : Type} (fn : List α → T) (ms : List (Nat × α))
    (s : ComputedSys α T) (hs : s.cache = fn s.sources) :
    (applyMuts fn s ms).cache = fn (applyMuts fn s ms).sources := by
  induction ms generalizing s with
  | nil => exact hs
  | cons m ms ih => exact ih _ rfl

/-- Claim C6: for every Derived Value built by computed over a list of
sources, after construction and after any sequence of source mutations,
reading its value yields the combining function applied to the sources'
current values in source order. -/
theorem computed_value_eq_fn_sources {α T : Type} (fn : List α → T) (deps : List α)
    (ms : List (Nat × α)) :
    (applyMuts fn (computed fn deps) ms).value =
      fn (applyMuts fn (computed fn deps) ms).sources :=
  applyMuts_cache fn ms (computed fn deps) rfl

/-- Claim C7: for every fetchState handle, an execute whose HTTP response is
non-2xx settles as a failure whose stored error message contains the numeric
status and the status text, and a 2xx response resolves with the parsed
body, stored in the data cell. -/
theorem fetch_http_status_mapping {D : Type} (parse : String → D) (r : HttpResponse)
    (h : AsyncHandle HttpResponse D) (hh : h.handler = fetchHandler parse) :
    (r.ok = false →
      (((h.execute r).2 =
          Except.error { message := "HTTP " ++ toString r.status ++ ": " ++ r.statusText }) ∧
       ((h.execute r).1.error.current =
          SV.val { message := "HTTP " ++ toString r.status ++ ": " ++ r.statusText }) ∧
       containsStr (toString r.status)
         ("HTTP " ++ toString r.status ++ ": " ++ r.statusText) ∧
       containsStr r.statusText
         ("HTTP " ++ toString r.status ++ ": " ++ r.statusText))) ∧
    (r.ok = true →
      (((h.execute r).2 = Except.ok (parse r.body)) ∧
       ((h.execute r).1.data.current = SV.val (parse r.body)))) := by
  constructor
  · intro hok
    refine ⟨?_, ?_, ?_, ?_⟩
    · simp [AsyncHandle.execute, hh, fetchHandler, hok]
    · simp [AsyncHandle.execute, AsyncHandle.settle, AsyncHandle.executeStart,
        StateCell.set, hh, fetchHandler, hok]
    · refine ⟨"HTTP ".data, (": " ++ r.statusText).data, ?_⟩
      simp [String.data_append, List.append_assoc]
    · refine ⟨("HTTP " ++ toString r.status ++ ": ").data, [], ?_⟩
      simp [String.data_append, List.append_assoc]
  · intro hok
    constructor
    · simp [AsyncHandle.execute, hh, fetchHandler, hok]
    · simp [AsyncHandle.execute, AsyncHandle.settle, AsyncHandle.executeStart,
        StateCell.set, hh, fetchHandler, hok]

/-- Witness for C7: a 404 Not Found response settles as a failure whose
stored message contains 404 and Not Found; a 200 response resolves with the
parsed body. -/
theorem fetch_http_status_mapping_witness :
    (HttpResponse.ok ⟨404, "Not Found", ""⟩ = false) ∧
    (((fetchState (fun s : String => s)).execute ⟨404, "Not Found", ""⟩).2 =
      Except.error { message := "HTTP " ++ toString (404 : Nat) ++ ": " ++ "Not Found" }) ∧
    containsStr (toString (404 : Nat))
      ("HTTP " ++ toString (404 : Nat) ++ ": " ++ "Not Found") ∧
    containsStr "Not Found" ("HTTP " ++ toString (404 : Nat) ++ ": " ++ "Not Found") ∧
    (HttpResponse.ok ⟨200, "OK", "body"⟩ = true) ∧
    (((fetchState (fun s : String => s)).execute ⟨200, "OK", "body"⟩).2 =
      Except.ok "body") := by
  have h404 := fetch_http_status_mapping (fun s : String => s) ⟨404, "Not Found", ""⟩
    (fetchState (fun s : String => s)) rfl
  have h200 := fetch_http_status_mapping (fun s : String => s) ⟨200, "OK", "body"⟩
    (fetchState (fun s : String => s)) rfl
  have o404 := h404.1 (by decide)
  have o200 := h200.2 (by decide)
  exact ⟨by decide, o404.1, o404.2.2.1, o404.2.2.2, by decide, o200.1⟩

/-- Counterexample for C8: a handle whose exposed error cell was set to the
undefined absence marker has hasError equal to true, because the source only
compares against null; so hasError is not equivalent to the error value
being non-absent. -/
theorem hasError_undef_counterexample :
    (((asyncState (fun n : Nat => (Except.ok n : Except JsError Nat)) SV.null).errorSet
        SV.undef).hasError = true) ∧
    (((asyncState (fun n : Nat => (Except.ok n : Except JsError Nat)) SV.null).errorSet
        SV.undef).error.current = SV.undef) ∧
    ¬((((asyncState (fun n : Nat => (Except.ok n : Except JsError Nat)) SV.null).errorSet
        SV.undef).hasError = true) ↔
      ((((asyncState (fun n : Nat => (Except.ok n : Except JsError Nat)) SV.null).errorSet
          SV.undef).error.current ≠ SV.null) ∧
       (((asyncState (fun n : Nat => (Except.ok n : Except JsError Nat)) SV.null).errorSet
          SV.undef).error.current ≠ SV.undef))) := by
  refine ⟨rfl, rfl, ?_⟩
  intro hiff
  exact ((hiff.mp rfl).2 rfl).elim

/-- Claim C8 amended: for every async handle, hasError is true iff the error
cell's value is not the null marker (a cell holding undefined yields
hasError true), and hasData is true iff the data cell's value is neither
null nor undefined. -/
theorem hasError_hasData_characterization {P D : Type} (h : AsyncHandle P D) :
    (h.hasError = true ↔ h.error.current ≠ SV.null) ∧
    (h.hasData = true ↔ (h.data.current ≠ SV.null ∧ h.data.current ≠ SV.undef)) := by
  constructor
  · cases he : h.error.current <;> simp [AsyncHandle.hasError, he]
  · cases hd : h.data.current <;> simp [AsyncHandle.hasData, hd]

/-- Claim C9: mutationState returns exactly the handle asyncState builds
with the default initial data null: the handle, its execute on every input,
its three cells, its reset, and its derived booleans all coincide. -/
theorem mutationState_refines_asyncState {P D : Type} (hd : P → Except JsError D) :
    (mutationState hd = asyncState hd SV.null) ∧
    (∀ p, (mutationState hd).execute p = (asyncState hd SV.null).execute p) ∧
    ((mutationState hd).data = (asyncState hd SV.null).data) ∧
    ((mutationState hd).loading = (asyncState hd SV.null).loading) ∧
    ((mutationState hd).error = (asyncState hd SV.null).error) ∧
    ((mutationState hd).reset = (asyncState hd SV.null).reset) ∧
    ((mutationState hd).isLoading = (asyncState hd SV.null).isLoading) ∧
    ((mutationState hd).hasError = (asyncState hd SV.null).hasError) ∧
    ((mutationState hd).hasData = (asyncState hd SV.null).hasData) :=
  ⟨rfl, fun _ => rfl, rfl, rfl, rfl, rfl, rfl, rfl, rfl⟩

/-- Claim C10: immediately after construction, data holds initialData (null
for fetchState and mutationState, which omit the argument), loading holds
false, error holds null, and isLoading and hasError are both false. -/
theorem construction_initial_cells {P D : Type} (hd : P → Except JsError D) (i : SV D) :
    ((asyncState hd i).data.current = i) ∧
    ((asyncState hd i).loading.current = SV.val false) ∧
    ((asyncState hd i).error.current = SV.null) ∧
    ((asyncState hd i).isLoading = false) ∧
    ((asyncState hd i).hasError = false) ∧
    (∀ parse : String → D, (fetchState parse).data.current = SV.null) ∧
    ((mutationState hd).data.current = SV.null) :=
  ⟨rfl, rfl, rfl, rfl, rfl, fun _ => rfl, rfl⟩

end Raptor
